import Mathlib

/-!
Shallow embedding of the raymarching + physics viewer (Renderer, Shader,
Texture, Mesh, main loop) and proofs of the specification claims.

Conventions of the embedding:
* machine floats that only ever feed comparisons and exact constants are
  modelled as rationals;
* OpenGL handle allocation (glGenTextures, glGenBuffers, glGenVertexArrays,
  glCreateProgram) is modelled as a counter starting at 1, so 0 is the null
  handle, and glDelete* is modelled by appending to a list of freed handles;
* the external collaborators (file system, stb_image decode, GLSL compiler,
  Assimp) are parameters of the functions that consume them.
-/

set_option autoImplicit false

/-! ## Editor mode state machine (Renderer.h / Renderer.cpp)

`EditorState` is the enum of Renderer.h line 23.  `RendererState` collects the
Renderer fields that the mode machine and the main loop read and write:
`isPaused` (Renderer.h line 46, default false), `m_editorState`,
`m_lockMouseInPlayMode`, `firstMouse`, and the GLFW cursor input mode. -/

inductive EditorState where
  | EDITING
  | PLAYING
  deriving DecidableEq, Fintype, Repr

inductive CursorMode where
  | NORMAL
  | DISABLED
  deriving DecidableEq, Fintype, Repr

structure RendererState where
  isPaused : Bool
  m_editorState : EditorState
  m_lockMouseInPlayMode : Bool
  firstMouse : Bool
  cursor : CursorMode
  deriving DecidableEq, Fintype, Repr

/-- Renderer state after the constructor (Renderer.cpp lines 53-88: firstMouse
true, m_editorState EDITING, m_lockMouseInPlayMode true, isPaused defaulted
false in Renderer.h line 46) and after the glfwSetInputMode call of
Renderer::Initialize line 146 (cursor GLFW_CURSOR_NORMAL). -/
def initialRenderer : RendererState :=
  { isPaused := false
    m_editorState := EditorState.EDITING
    m_lockMouseInPlayMode := true
    firstMouse := true
    cursor := CursorMode.NORMAL }

/-- One evaluation of the Play/Stop part of Renderer::RenderUIToolbar
(Renderer.cpp lines 317-329): in EDITING the toolbar shows only the Play
button; otherwise only the Stop button. -/
def toolbarStep (s : RendererState) (playClicked stopClicked : Bool) : RendererState :=
  if s.m_editorState = EditorState.EDITING then
    if playClicked then
      if s.m_lockMouseInPlayMode then
        { s with m_editorState := EditorState.PLAYING
                 cursor := CursorMode.DISABLED
                 firstMouse := true }
      else
        { s with m_editorState := EditorState.PLAYING }
    else s
  else
    if stopClicked then
      { s with m_editorState := EditorState.EDITING
               cursor := CursorMode.NORMAL }
    else s

/-- Clicking Play in the toolbar. -/
def playEvent (s : RendererState) : RendererState := toolbarStep s true false

/-- Clicking Stop in the toolbar. -/
def stopEvent (s : RendererState) : RendererState := toolbarStep s false true

/-- The Escape edge of Renderer::ProcessInput (Renderer.cpp lines 552-562),
taken when Escape goes from released to pressed. -/
def escapeEvent (s : RendererState) : RendererState :=
  if s.m_editorState = EditorState.PLAYING then
    { s with m_editorState := EditorState.EDITING
             cursor := CursorMode.NORMAL
             firstMouse := true }
  else s

/-! ## Main loop (main.cpp lines 150-175) -/

/-- The delta-time clamp of main.cpp lines 156-158: values above 0.1 are
clamped to 0.1 and non-positive values are replaced by 1/60. -/
def clampDeltaTime (d : ℚ) : ℚ :=
  let d1 := if d > 1/10 then 1/10 else d
  if d1 ≤ 0 then 1/60 else d1

/-- Arguments of one btDiscreteDynamicsWorld::stepSimulation request. -/
structure StepCall where
  dt : ℚ
  maxSubSteps : ℕ
  fixedStep : ℚ
  deriving DecidableEq, Repr

/-- The physics update of one main-loop iteration (main.cpp lines 164-167):
stepSimulation(deltaTime, 10, 1/60) is requested exactly when
renderer.isPaused is false. -/
def mainLoopPhysicsCall (elapsed : ℚ) (r : RendererState) : Option StepCall :=
  if r.isPaused then none
  else some { dt := clampDeltaTime elapsed, maxSubSteps := 10, fixedStep := 1/60 }

/-- The dt value handed to renderer.Update in the same iteration
(main.cpp line 170). -/
def mainLoopUpdateDt (elapsed : ℚ) : ℚ := clampDeltaTime elapsed

/-- Whether the iteration steps the physics world (the guard of
main.cpp line 165). -/
def physicsStepped (r : RendererState) : Bool := !r.isPaused

/-! ## Shader Program (Shader.h / Shader.cpp)

The constructor (Shader.cpp lines 13-91) depends on the file system (whether
the two whole-file reads succeed), on the GLSL compiler (whether each stage
compiles and whether the program links) and on the handle glCreateProgram
returns.  These collaborators form `ShaderEnv`. -/

structure ShaderEnv where
  vertexRead : Option String
  fragmentRead : Option String
  vertexCompileOk : Bool
  fragmentCompileOk : Bool
  linkOk : Bool
  newProgram : ℕ
  deriving DecidableEq, Repr

structure ShaderObj where
  ID : ℕ
  m_isValid : Bool
  deriving DecidableEq, Repr

/-- Shader::Shader (Shader.cpp lines 13-91).  ID starts at 0 and m_isValid at
false; each failure path (file read, vertex compile, fragment compile, link)
returns early, the link failure resetting ID to 0; only full success sets
m_isValid. -/
def shaderConstruct (env : ShaderEnv) : ShaderObj :=
  match env.vertexRead, env.fragmentRead with
  | none, _ => { ID := 0, m_isValid := false }
  | some _, none => { ID := 0, m_isValid := false }
  | some _, some _ =>
    if !env.vertexCompileOk then { ID := 0, m_isValid := false }
    else if !env.fragmentCompileOk then { ID := 0, m_isValid := false }
    else if !env.linkOk then { ID := 0, m_isValid := false }
    else { ID := env.newProgram, m_isValid := true }

/-- GL commands the Shader member functions may issue. -/
inductive GLCall where
  | useProgram (id : ℕ)
  | uniform1i (loc : ℤ) (v : ℤ)
  | uniform1f (loc : ℤ) (v : ℚ)
  | uniform3f (loc : ℤ) (v : ℚ × ℚ × ℚ)
  | uniformMat4 (loc : ℤ) (m : List ℚ)
  deriving DecidableEq, Repr

/-- Shader::use (Shader.cpp lines 103-108): glUseProgram(ID) only if valid. -/
def shaderUse (sh : ShaderObj) : List GLCall :=
  if sh.m_isValid then [GLCall.useProgram sh.ID] else []

/-- Shader::setBool (Shader.cpp lines 153-155).  `lookup` stands for
glGetUniformLocation on this program, consulted only when valid. -/
def shaderSetBool (sh : ShaderObj) (lookup : String → ℤ) (name : String) (value : Bool) :
    List GLCall :=
  if sh.m_isValid then [GLCall.uniform1i (lookup name) (if value then 1 else 0)] else []

/-- Shader::setInt (Shader.cpp lines 157-159). -/
def shaderSetInt (sh : ShaderObj) (lookup : String → ℤ) (name : String) (value : ℤ) :
    List GLCall :=
  if sh.m_isValid then [GLCall.uniform1i (lookup name) value] else []

/-- Shader::setFloat (Shader.cpp lines 161-163). -/
def shaderSetFloat (sh : ShaderObj) (lookup : String → ℤ) (name : String) (value : ℚ) :
    List GLCall :=
  if sh.m_isValid then [GLCall.uniform1f (lookup name) value] else []

/-- Shader::setVec3 (Shader.cpp lines 165-168). -/
def shaderSetVec3 (sh : ShaderObj) (lookup : String → ℤ) (name : String) (value : ℚ × ℚ × ℚ) :
    List GLCall :=
  if sh.m_isValid then [GLCall.uniform3f (lookup name) value] else []

/-- Shader::setMat4 (Shader.cpp lines 170-173). -/
def shaderSetMat4 (sh : ShaderObj) (lookup : String → ℤ) (name : String) (value : List ℚ) :
    List GLCall :=
  if sh.m_isValid then [GLCall.uniformMat4 (lookup name) value] else []

/-! ## Texture Resource (Textures.h / Textures.cpp)

The process-wide statics `textureCache` and `textureTimestamps`
(Textures.cpp lines 10-11) are modelled as association lists from path to GPU
handle and to modification timestamp.  GL texture state is a fresh-handle
counter, the list of handles passed to glDeleteTextures, and a count of
stbi_load invocations (to observe decodes). -/

def lookupA (l : List (String × ℕ)) (k : String) : Option ℕ :=
  match l with
  | [] => none
  | p :: rest => if p.1 = k then some p.2 else lookupA rest k

def eraseA (l : List (String × ℕ)) (k : String) : List (String × ℕ) :=
  match l with
  | [] => []
  | p :: rest => if p.1 = k then eraseA rest k else p :: eraseA rest k

def insertA (l : List (String × ℕ)) (k : String) (v : ℕ) : List (String × ℕ) :=
  (k, v) :: eraseA l k

structure TexGL where
  nextID : ℕ
  deleted : List ℕ
  decodes : ℕ
  deriving DecidableEq, Repr

structure TexCacheState where
  cache : List (String × ℕ)
  stamps : List (String × ℕ)
  gl : TexGL
  deriving DecidableEq, Repr

/-- glDeleteTextures on one handle. -/
def freeTex (g : TexGL) (h : ℕ) : TexGL := { g with deleted := g.deleted ++ [h] }

/-- The per-construction file-system environment: the file's current
modification timestamp (none when the file does not exist) and the stb_image
decode result, reduced to the channel count (none when decoding fails). -/
structure FileEnv where
  mtime : Option ℕ
  decodeChannels : Option ℕ
  deriving DecidableEq, Repr

inductive GLFormat where
  | red
  | rgb
  | rgba
  deriving DecidableEq, Repr

/-- The format chain of Texture::LoadTextureData (Textures.cpp lines 66-76):
1 channel GL_RED, 3 GL_RGB, 4 GL_RGBA, and for any other count the code
prints "Unsupported number of channels" and falls through with GL_RGB. -/
def chooseFormat (nrChannels : ℕ) : GLFormat :=
  if nrChannels = 1 then GLFormat.red
  else if nrChannels = 3 then GLFormat.rgb
  else if nrChannels = 4 then GLFormat.rgba
  else GLFormat.rgb

/-- Texture::LoadTextureData (Textures.cpp lines 56-111).  Returns the new
instance ID and the format on success.  The stbi_load call is counted in both
branches; on success glGenTextures yields a fresh handle, the image is
uploaded with the chosen format, and the handle is stored in the cache when
`addToCache` holds. -/
def LoadTextureData (path : String) (addToCache : Bool) (decoded : Option ℕ)
    (s : TexCacheState) : Option (ℕ × GLFormat) × TexCacheState :=
  let s0 : TexCacheState := { s with gl := { s.gl with decodes := s.gl.decodes + 1 } }
  match decoded with
  | some ch =>
    let fmt := chooseFormat ch
    let id := s0.gl.nextID
    let s1 : TexCacheState := { s0 with gl := { s0.gl with nextID := s0.gl.nextID + 1 } }
    let s2 := if addToCache then { s1 with cache := insertA s1.cache path id } else s1
    (some (id, fmt), s2)
  | none => (none, s0)

inductive TexResult where
  | ok (id : ℕ)
  | thrown
  deriving DecidableEq, Repr

/-- The tail of Texture::Texture after the cache check (Textures.cpp lines
47-53): store the current timestamp, run LoadTextureData, and throw when it
fails. -/
def freshLoad (path : String) (useCache : Bool) (current : ℕ) (decoded : Option ℕ)
    (s : TexCacheState) : TexResult × TexCacheState :=
  let s1 : TexCacheState := { s with stamps := insertA s.stamps path current }
  match LoadTextureData path useCache decoded s1 with
  | (some idf, s2) => (TexResult.ok idf.1, s2)
  | (none, s2) => (TexResult.thrown, s2)

/-- Texture::Texture (Textures.cpp lines 13-54).  A missing file throws.  With
caching on and both maps holding the path, an equal timestamp reuses the
cached handle untouched; a different timestamp deletes the cached handle (when
non-zero), erases the cache entry and reloads.  Every other case reloads. -/
def textureConstruct (path : String) (useCache : Bool) (env : FileEnv)
    (s : TexCacheState) : TexResult × TexCacheState :=
  match env.mtime with
  | none => (TexResult.thrown, s)
  | some current =>
    match useCache, lookupA s.cache path, lookupA s.stamps path with
    | true, some cid, some ct =>
      if ct = current then (TexResult.ok cid, s)
      else
        let s1 := if cid ≠ 0 then { s with gl := freeTex s.gl cid } else s
        let s2 : TexCacheState := { s1 with cache := eraseA s1.cache path }
        freshLoad path true current env.decodeChannels s2
    | true, some _, none => freshLoad path true current env.decodeChannels s
    | true, none, _ => freshLoad path true current env.decodeChannels s
    | false, _, _ => freshLoad path false current env.decodeChannels s

/-- Texture::~Texture (Textures.cpp lines 113-116): the body is empty, so the
process-wide state is untouched. -/
def textureDestroy (s : TexCacheState) : TexCacheState := s

/-- Texture::Reload (Textures.cpp lines 203-249): delete the old handle unless
a cache entry for another path shares it, drop the old path from both maps,
then re-resolve at the new path. -/
def textureReload (selfID : ℕ) (selfPath newPath : String) (env : FileEnv)
    (s : TexCacheState) : (Bool × ℕ) × TexCacheState :=
  let s0 :=
    if selfID ≠ 0 then
      let shared := s.cache.any fun pr => pr.1 != selfPath && pr.2 == selfID
      if shared then s else { s with gl := freeTex s.gl selfID }
    else s
  let s1 : TexCacheState :=
    { s0 with cache := eraseA s0.cache selfPath, stamps := eraseA s0.stamps selfPath }
  match env.mtime with
  | none => ((false, 0), s1)
  | some t =>
    let s2 : TexCacheState := { s1 with stamps := insertA s1.stamps newPath t }
    match LoadTextureData newPath true env.decodeChannels s2 with
    | (some idf, s3) => ((true, idf.1), s3)
    | (none, s3) => ((false, 0), s3)

/-- Texture::ClearCache (Textures.cpp lines 251-263): glDeleteTextures on
every non-zero cached handle, then both maps are emptied. -/
def textureClearCache (s : TexCacheState) : TexCacheState :=
  { cache := []
    stamps := []
    gl := { s.gl with deleted := s.gl.deleted ++ (s.cache.map Prod.snd).filter (· ≠ 0) } }

/-- Texture::ForceReloadAll (Textures.cpp lines 265-273): ClearCache plus a
no-op stb_image reset. -/
def textureForceReloadAll (s : TexCacheState) : TexCacheState := textureClearCache s

/-- The operations that can touch the process-wide texture state. -/
inductive TexOp where
  | construct (path : String) (useCache : Bool) (env : FileEnv)
  | destroy
  | reload (selfID : ℕ) (selfPath newPath : String) (env : FileEnv)
  | clearCache
  | forceReloadAll
  deriving DecidableEq, Repr

def texStep (s : TexCacheState) (op : TexOp) : TexCacheState :=
  match op with
  | TexOp.construct p uc env => (textureConstruct p uc env s).2
  | TexOp.destroy => textureDestroy s
  | TexOp.reload i p np env => (textureReload i p np env s).2
  | TexOp.clearCache => textureClearCache s
  | TexOp.forceReloadAll => textureForceReloadAll s

/-- `op` run in state `s` passes handle `h` to glDeleteTextures. -/
def opFrees (s : TexCacheState) (op : TexOp) (h : ℕ) : Prop :=
  h ∈ (texStep s op).gl.deleted ∧ h ∉ s.gl.deleted

/-- Whether `op` is Reload, ClearCache or ForceReloadAll. -/
def isCacheReleaseOp : TexOp → Prop
  | TexOp.reload _ _ _ _ => True
  | TexOp.clearCache => True
  | TexOp.forceReloadAll => True
  | _ => False

instance : DecidablePred isCacheReleaseOp := by
  intro op
  cases op <;> simp [isCacheReleaseOp] <;> infer_instance

/-! ## GPU Buffer Object (Mesh.h / Mesh.cpp)

glGenBuffers and glGenVertexArrays draw from independent handle namespaces;
each is a fresh counter plus the list of freed handles. -/

structure GLBufState where
  nextBuf : ℕ
  freedBuf : List ℕ
  nextArr : ℕ
  freedArr : List ℕ
  deriving DecidableEq, Repr

structure Vec3 where
  x : ℚ
  y : ℚ
  z : ℚ
  deriving DecidableEq, Repr

structure Vec2 where
  x : ℚ
  y : ℚ
  deriving DecidableEq, Repr

/-- Vertex (Mesh.h lines 17-34): position, color, texture coordinate. -/
structure MVertex where
  Position : Vec3
  Color : Vec3
  TexCoords : Vec2
  deriving DecidableEq, Repr

structure MeshObj where
  vertices : List MVertex
  indices : List ℕ
  VAO : ℕ
  VBO : ℕ
  EBO : ℕ
  deriving DecidableEq, Repr

/-- Mesh::Mesh plus Mesh::setupMesh (Mesh.cpp lines 13-23 and 33-69): copy the
input data, then glGenVertexArrays for VAO and glGenBuffers for VBO and EBO. -/
def meshConstruct (vs : List MVertex) (is : List ℕ) (g : GLBufState) :
    MeshObj × GLBufState :=
  let vao := g.nextArr
  let vbo := g.nextBuf
  let ebo := g.nextBuf + 1
  ({ vertices := vs, indices := is, VAO := vao, VBO := vbo, EBO := ebo },
   { g with nextArr := g.nextArr + 1, nextBuf := g.nextBuf + 2 })

/-- Mesh::cleanupMesh (Mesh.cpp lines 88-104): delete EBO, VBO, VAO in that
order, each guarded by a non-zero check, resetting the member to 0. -/
def cleanupMesh (m : MeshObj) (g : GLBufState) : MeshObj × GLBufState :=
  let st1 :=
    if m.EBO ≠ 0 then ({ m with EBO := 0 }, { g with freedBuf := g.freedBuf ++ [m.EBO] })
    else (m, g)
  let st2 :=
    if st1.1.VBO ≠ 0 then
      ({ st1.1 with VBO := 0 }, { st1.2 with freedBuf := st1.2.freedBuf ++ [st1.1.VBO] })
    else st1
  if st2.1.VAO ≠ 0 then
    ({ st2.1 with VAO := 0 }, { st2.2 with freedArr := st2.2.freedArr ++ [st2.1.VAO] })
  else st2

/-- Mesh::~Mesh (Mesh.cpp lines 26-29): delegates to cleanupMesh. -/
def meshDestroy (m : MeshObj) (g : GLBufState) : MeshObj × GLBufState := cleanupMesh m g

/-! ## Scene Asset Registry and mesh import (Renderer.cpp) -/

/-- The first-sub-mesh view of an Assimp aiMesh that
Renderer::LoadMeshFromFile reads: vertex positions, the optional texture
coordinate channel 0, and the faces as index lists. -/
structure AiMesh where
  positions : List Vec3
  texCoords0 : Option (List Vec2)
  faces : List (List ℕ)
  deriving Repr

/-- Renderer::LoadMeshFromFile (Renderer.cpp lines 697-721).  The Assimp
result is `scene` (none models a failed ReadFile).  Failure or a
scene without meshes returns null; otherwise the first mesh is flattened:
color defaults to white, uv to (0,0) unless channel 0 exists. -/
def LoadMeshFromFile (scene : Option (List AiMesh)) : Option (List MVertex × List ℕ) :=
  match scene with
  | none => none
  | some [] => none
  | some (m :: _) =>
    let vertices := (List.range m.positions.length).map fun i =>
      { Position := m.positions.getD i { x := 0, y := 0, z := 0 }
        Color := { x := 1, y := 1, z := 1 }
        TexCoords :=
          match m.texCoords0 with
          | some uvs => uvs.getD i { x := 0, y := 0 }
          | none => { x := 0, y := 0 } }
    some (vertices, m.faces.flatten)

/-- A Scene Asset registry entry (Renderer.h lines 26-30); the mesh pointer is
an Option because it is a unique_ptr. -/
structure SceneAssetRec where
  name : String
  position : Vec3
  mesh : Option (List MVertex × List ℕ)
  deriving Repr

/-- The Import Asset branch of Renderer::RenderUIToolbar (Renderer.cpp lines
331-343), after the file dialog returned `path`: on a mesh the registry gains
one entry named by the path at the origin; otherwise an error is reported and
the registry is untouched.  The Bool is true when the failure was reported. -/
def importAsset (registry : List SceneAssetRec) (path : String)
    (loadResult : Option (List MVertex × List ℕ)) : List SceneAssetRec × Bool :=
  match loadResult with
  | some m =>
    (registry ++ [{ name := path, position := { x := 0, y := 0, z := 0 }, mesh := some m }],
     false)
  | none => (registry, true)

/-! ## Render (Renderer.cpp lines 477-546)

`RenderEvent` records the externally visible actions of one Render call.  A
`none` result models the crash: with a null m_rasterShader and a non-empty
asset registry, the loop at lines 524-536 evaluates m_rasterShader->use()
on a null pointer. -/

inductive RenderEvent where
  | fallbackClear
  | terrainDraw
  | physicsObjectDraw (idx : ℕ)
  | assetDraw (name : String)
  | uiPass
  deriving DecidableEq, Repr

/-- A rigid body as the render pass sees it (Renderer.cpp lines 292-307):
whether btRigidBody::upcast succeeds with non-zero inverse mass and a motion
state, and its collision shape kind. -/
structure PhysBody where
  dynamicWithMotion : Bool
  isSphere : Bool
  deriving DecidableEq, Repr

/-- Renderer::renderPhysicsObjects (Renderer.cpp lines 281-311): nothing
happens when the raster shader is null or invalid or the world is null;
otherwise each dynamic body with a motion state is drawn with the cube VAO. -/
def renderPhysicsObjects (rasterShader : Option ShaderObj)
    (world : Option (List PhysBody)) : List RenderEvent :=
  match rasterShader, world with
  | some sh, some bodies =>
    if sh.m_isValid then
      ((List.range bodies.length).filter fun i =>
        (bodies.getD i { dynamicWithMotion := false, isSphere := false }).dynamicWithMotion).map
        RenderEvent.physicsObjectDraw
    else []
  | _, _ => []

/-- The imported-asset loop of Renderer::Render (lines 524-536): a null mesh
is skipped with a diagnostic, but m_rasterShader->use() is evaluated without
any null or validity check, so a null raster shader is dereferenced. -/
def assetPass (rasterShader : Option ShaderObj) (assets : List SceneAssetRec) :
    Option (List RenderEvent) :=
  match assets with
  | [] => some []
  | a :: rest =>
    match a.mesh with
    | none => assetPass rasterShader rest
    | some _ =>
      match rasterShader with
      | none => none
      | some _ => (assetPass rasterShader rest).map (RenderEvent.assetDraw a.name :: ·)

/-- Renderer::Render (Renderer.cpp lines 477-546).  An invalid or null
raymarch shader yields the fallback clear plus the UI pass; otherwise the
terrain pass draws, then the physics pass, then the asset loop (which can
crash), then the UI pass. -/
def renderFrame (raymarchShader rasterShader : Option ShaderObj)
    (world : Option (List PhysBody)) (assets : List SceneAssetRec) :
    Option (List RenderEvent) :=
  match raymarchShader with
  | none => some [RenderEvent.fallbackClear, RenderEvent.uiPass]
  | some rm =>
    if rm.m_isValid then
      match assetPass rasterShader assets with
      | none => none
      | some assetEvents =>
        some ([RenderEvent.terrainDraw] ++ renderPhysicsObjects rasterShader world ++
          assetEvents ++ [RenderEvent.uiPass])
    else some [RenderEvent.fallbackClear, RenderEvent.uiPass]

/-- The stated release discipline of the texture subsystem: GPU texture
handles are passed to glDeleteTextures only by Reload, ClearCache or
ForceReloadAll. -/
def releasedOnlyByCacheOps : Prop :=
  ∀ (s : TexCacheState) (op : TexOp) (h : ℕ), opFrees s op h → isCacheReleaseOp op

/-- The stated destructor behavior: destroying a Texture instance leaves the
process-wide state untouched. -/
def texDestructorInert : Prop := ∀ s : TexCacheState, textureDestroy s = s

/-! ## Helper lemmas -/

theorem lookupA_insertA_self (l : List (String × ℕ)) (k : String) (v : ℕ) :
    lookupA (insertA l k v) k = some v := by
  simp [insertA, lookupA]

theorem loadTextureData_stamps (p : String) (a : Bool) (d : Option ℕ) (s : TexCacheState) :
    (LoadTextureData p a d s).2.stamps = s.stamps := by
  cases d with
  | none => rfl
  | some ch =>
    simp only [LoadTextureData]
    split <;> rfl

theorem loadTextureData_deleted (p : String) (a : Bool) (d : Option ℕ) (s : TexCacheState) :
    (LoadTextureData p a d s).2.gl.deleted = s.gl.deleted := by
  cases d with
  | none => rfl
  | some ch =>
    simp only [LoadTextureData]
    split <;> rfl

theorem freshLoad_deleted (p : String) (uc : Bool) (cur : ℕ) (d : Option ℕ)
    (s : TexCacheState) : (freshLoad p uc cur d s).2.gl.deleted = s.gl.deleted := by
  cases d with
  | none => rfl
  | some ch =>
    simp only [freshLoad, LoadTextureData]
    split <;> rfl

/-! ## C9: delta-time clamp and fixed physics sub-steps -/

/-- C9.  In every main-loop iteration the dt handed to Update and to the
physics step is the clamped value, at most 0.1 s, and every issued
stepSimulation request carries maxSubSteps 10 and fixed sub-step 1/60
regardless of the true elapsed time. -/
theorem mainLoop_dt_clamped_and_substeps_fixed (elapsed : ℚ) (r : RendererState) :
    mainLoopUpdateDt elapsed ≤ 1/10 ∧
    ∀ c ∈ mainLoopPhysicsCall elapsed r,
      c.dt = mainLoopUpdateDt elapsed ∧ c.dt ≤ 1/10 ∧ c.maxSubSteps = 10 ∧
      c.fixedStep = 1/60 := by
  have hclamp : clampDeltaTime elapsed ≤ 1/10 := by
    simp only [clampDeltaTime]
    split_ifs with h1 h2 h3
    all_goals try norm_num
    all_goals linarith
  refine ⟨hclamp, ?_⟩
  intro c hc
  simp only [mainLoopPhysicsCall] at hc
  split_ifs at hc with hp
  · simp at hc
  · simp only [Option.mem_def, Option.some.injEq] at hc
    subst hc
    exact ⟨rfl, hclamp, rfl, rfl⟩

/-- Witness for C9: one concrete stalled frame (elapsed 3 s, unpaused
renderer) whose physics request is clamped to 0.1 s with 10 sub-steps of
1/60 s. -/
theorem mainLoop_dt_clamped_witness :
    ({ dt := 1/10, maxSubSteps := 10, fixedStep := 1/60 } : StepCall).dt =
        mainLoopUpdateDt 3 ∧
    ({ dt := 1/10, maxSubSteps := 10, fixedStep := 1/60 } : StepCall).dt ≤ 1/10 ∧
    ({ dt := 1/10, maxSubSteps := 10, fixedStep := 1/60 } : StepCall).maxSubSteps = 10 ∧
    ({ dt := 1/10, maxSubSteps := 10, fixedStep := 1/60 } : StepCall).fixedStep = 1/60 :=
  (mainLoop_dt_clamped_and_substeps_fixed 3 initialRenderer).2
    { dt := 1/10, maxSubSteps := 10, fixedStep := 1/60 }
    (by norm_num [Option.mem_def, mainLoopPhysicsCall, initialRenderer, clampDeltaTime])

/-! ## C7: scene asset import -/

/-- C7.  A successful import appends exactly one registry entry whose name is
the chosen path and whose position is the origin, leaving the earlier entries
in place; a failed import (no mesh from the collaborator) leaves the registry
unchanged and reports the failure. -/
theorem importAsset_registry_behavior (registry : List SceneAssetRec) (path : String)
    (m : List MVertex × List ℕ) :
    importAsset registry path (some m) =
      (registry ++
        [{ name := path, position := { x := 0, y := 0, z := 0 }, mesh := some m }], false) ∧
    (importAsset registry path (some m)).1.length = registry.length + 1 ∧
    importAsset registry path none = (registry, true) := by
  simp [importAsset]

/-! ## C1: physics stepping versus editor mode -/

/-- C1 (code bug).  main.cpp line 165 guards the physics step with
renderer.isPaused, but isPaused starts false (Renderer.h line 46) and no
Renderer operation ever writes it, so on the very first iteration — still in
EDITING mode — stepSimulation is requested; the mode and the stepping guard
are unrelated, contradicting the claim that physics is never stepped while
Editing. -/
theorem physics_stepped_while_editing :
    initialRenderer.m_editorState = EditorState.EDITING ∧
    physicsStepped initialRenderer = true ∧
    mainLoopPhysicsCall (1/60) initialRenderer =
      some { dt := 1/60, maxSubSteps := 10, fixedStep := 1/60 } ∧
    (∀ s : RendererState,
      (playEvent s).isPaused = s.isPaused ∧
      (stopEvent s).isPaused = s.isPaused ∧
      (escapeEvent s).isPaused = s.isPaused) := by
  refine ⟨rfl, rfl, ?_, by decide⟩
  norm_num [mainLoopPhysicsCall, initialRenderer, clampDeltaTime]

/-! ## C5: editor mode transitions -/

/-- C5.  The mode machine starts in EDITING; Play moves EDITING to PLAYING
and, when mouse-lock is enabled, captures the pointer and resets first-mouse
tracking; Stop or Escape from PLAYING returns to EDITING with a normal
pointer; Stop and Escape in EDITING change nothing. -/
theorem editor_mode_state_machine :
    initialRenderer.m_editorState = EditorState.EDITING ∧
    (∀ s : RendererState, s.m_editorState = EditorState.EDITING →
      (playEvent s).m_editorState = EditorState.PLAYING ∧
      (s.m_lockMouseInPlayMode = true →
        (playEvent s).cursor = CursorMode.DISABLED ∧ (playEvent s).firstMouse = true)) ∧
    (∀ s : RendererState, s.m_editorState = EditorState.PLAYING →
      (stopEvent s).m_editorState = EditorState.EDITING ∧
      (stopEvent s).cursor = CursorMode.NORMAL ∧
      (escapeEvent s).m_editorState = EditorState.EDITING ∧
      (escapeEvent s).cursor = CursorMode.NORMAL) ∧
    (∀ s : RendererState, s.m_editorState = EditorState.EDITING →
      stopEvent s = s ∧ escapeEvent s = s) := by
  refine ⟨rfl, ?_, ?_, ?_⟩ <;> decide

/-- Witness for C5: the concrete startup state runs Play (entering PLAYING
with a captured pointer and reset mouse tracking), then Stop returns to
EDITING with a normal pointer, and Stop/Escape at startup are no-ops. -/
theorem editor_mode_state_machine_witness :
    ((playEvent initialRenderer).m_editorState = EditorState.PLAYING ∧
      ((initialRenderer.m_lockMouseInPlayMode = true →
        (playEvent initialRenderer).cursor = CursorMode.DISABLED ∧
        (playEvent initialRenderer).firstMouse = true))) ∧
    ((stopEvent (playEvent initialRenderer)).m_editorState = EditorState.EDITING ∧
      (stopEvent (playEvent initialRenderer)).cursor = CursorMode.NORMAL ∧
      (escapeEvent (playEvent initialRenderer)).m_editorState = EditorState.EDITING ∧
      (escapeEvent (playEvent initialRenderer)).cursor = CursorMode.NORMAL) ∧
    (stopEvent initialRenderer = initialRenderer ∧
      escapeEvent initialRenderer = initialRenderer) :=
  ⟨⟨(editor_mode_state_machine.2.1 initialRenderer rfl).1,
     (editor_mode_state_machine.2.1 initialRenderer rfl).2⟩,
   editor_mode_state_machine.2.2.1 (playEvent initialRenderer) (by decide),
   editor_mode_state_machine.2.2.2 initialRenderer rfl⟩

/-! ## C6: invalid shader invariant -/

/-- C6.  Whenever the constructed Shader is invalid its program handle is 0,
use() issues no program activation and every uniform setter issues no GL
call; and each constructor failure path (file read, vertex compile, fragment
compile, link) yields an invalid shader. -/
theorem invalid_shader_invariant (env : ShaderEnv) :
    ((shaderConstruct env).m_isValid = false →
      (shaderConstruct env).ID = 0 ∧
      shaderUse (shaderConstruct env) = [] ∧
      (∀ lookup name value,
        shaderSetBool (shaderConstruct env) lookup name value = []) ∧
      (∀ lookup name value,
        shaderSetInt (shaderConstruct env) lookup name value = []) ∧
      (∀ lookup name value,
        shaderSetFloat (shaderConstruct env) lookup name value = []) ∧
      (∀ lookup name value,
        shaderSetVec3 (shaderConstruct env) lookup name value = []) ∧
      (∀ lookup name value,
        shaderSetMat4 (shaderConstruct env) lookup name value = [])) ∧
    (env.vertexRead = none → (shaderConstruct env).m_isValid = false) ∧
    (env.fragmentRead = none → (shaderConstruct env).m_isValid = false) ∧
    (env.vertexCompileOk = false → (shaderConstruct env).m_isValid = false) ∧
    (env.fragmentCompileOk = false → (shaderConstruct env).m_isValid = false) ∧
    (env.linkOk = false → (shaderConstruct env).m_isValid = false) := by
  obtain ⟨vr, fr, vc, fc, lk, np⟩ := env
  refine ⟨fun hinv => ?_, ?_, ?_, ?_, ?_, ?_⟩
  · refine ⟨?_, ?_, ?_, ?_, ?_, ?_, ?_⟩ <;>
      simp_all [shaderConstruct, shaderUse, shaderSetBool, shaderSetInt, shaderSetFloat,
        shaderSetVec3, shaderSetMat4] <;>
      cases vr <;> cases fr <;> simp_all [shaderConstruct] <;>
      split_ifs at hinv ⊢ <;> simp_all
  all_goals intro h
  all_goals cases vr <;> cases fr <;> simp_all [shaderConstruct]

/-- Witness for C6: a concrete environment in which every failure condition
holds at once (both reads fail, both compiles and the link are marked
failed); the constructed shader is invalid with handle 0 and silent
operations. -/
theorem invalid_shader_invariant_witness :
    ((shaderConstruct ⟨none, none, false, false, false, 7⟩).ID = 0 ∧
      shaderUse (shaderConstruct ⟨none, none, false, false, false, 7⟩) = [] ∧
      (∀ lookup name value,
        shaderSetBool (shaderConstruct ⟨none, none, false, false, false, 7⟩)
          lookup name value = []) ∧
      (∀ lookup name value,
        shaderSetInt (shaderConstruct ⟨none, none, false, false, false, 7⟩)
          lookup name value = []) ∧
      (∀ lookup name value,
        shaderSetFloat (shaderConstruct ⟨none, none, false, false, false, 7⟩)
          lookup name value = []) ∧
      (∀ lookup name value,
        shaderSetVec3 (shaderConstruct ⟨none, none, false, false, false, 7⟩)
          lookup name value = []) ∧
      (∀ lookup name value,
        shaderSetMat4 (shaderConstruct ⟨none, none, false, false, false, 7⟩)
          lookup name value = [])) ∧
    (shaderConstruct ⟨none, none, false, false, false, 7⟩).m_isValid = false ∧
    (shaderConstruct ⟨none, none, false, false, false, 7⟩).m_isValid = false ∧
    (shaderConstruct ⟨none, none, false, false, false, 7⟩).m_isValid = false ∧
    (shaderConstruct ⟨none, none, false, false, false, 7⟩).m_isValid = false ∧
    (shaderConstruct ⟨none, none, false, false, false, 7⟩).m_isValid = false :=
  ⟨(invalid_shader_invariant ⟨none, none, false, false, false, 7⟩).1 rfl,
   (invalid_shader_invariant ⟨none, none, false, false, false, 7⟩).2.1 rfl,
   (invalid_shader_invariant ⟨none, none, false, false, false, 7⟩).2.2.1 rfl,
   (invalid_shader_invariant ⟨none, none, false, false, false, 7⟩).2.2.2.1 rfl,
   (invalid_shader_invariant ⟨none, none, false, false, false, 7⟩).2.2.2.2.1 rfl,
   (invalid_shader_invariant ⟨none, none, false, false, false, 7⟩).2.2.2.2.2 rfl⟩

/-! ## C8: mesh construct/destroy leaves all three handles at zero -/

/-- C8.  Constructing a Mesh then destroying it zeroes the vertex array,
vertex buffer and index buffer members; a second cleanup is a no-op (zero
handles are skipped); and the destroy frees exactly the three handles the
construction allocated, so repeated cycles leak nothing. -/
theorem mesh_construct_destroy_no_leak (vs : List MVertex) (is : List ℕ)
    (g : GLBufState) (hb : 0 < g.nextBuf) (ha : 0 < g.nextArr) :
    ((meshDestroy (meshConstruct vs is g).1 (meshConstruct vs is g).2).1.VAO = 0 ∧
      (meshDestroy (meshConstruct vs is g).1 (meshConstruct vs is g).2).1.VBO = 0 ∧
      (meshDestroy (meshConstruct vs is g).1 (meshConstruct vs is g).2).1.EBO = 0) ∧
    cleanupMesh (meshDestroy (meshConstruct vs is g).1 (meshConstruct vs is g).2).1
        (meshDestroy (meshConstruct vs is g).1 (meshConstruct vs is g).2).2 =
      meshDestroy (meshConstruct vs is g).1 (meshConstruct vs is g).2 ∧
    (meshDestroy (meshConstruct vs is g).1 (meshConstruct vs is g).2).2.freedBuf =
      g.freedBuf ++ [(meshConstruct vs is g).1.EBO, (meshConstruct vs is g).1.VBO] ∧
    (meshDestroy (meshConstruct vs is g).1 (meshConstruct vs is g).2).2.freedArr =
      g.freedArr ++ [(meshConstruct vs is g).1.VAO] := by
  have hb0 : g.nextBuf ≠ 0 := Nat.pos_iff_ne_zero.mp hb
  have ha0 : g.nextArr ≠ 0 := Nat.pos_iff_ne_zero.mp ha
  simp [meshConstruct, meshDestroy, cleanupMesh, hb0, ha0]

/-- Witness for C8: one cube-less empty mesh constructed in the initial GL
state (next buffer handle 1, next array handle 1) and destroyed: all three
members end at zero, the second cleanup is inert, and exactly handles 2, 1
(buffers) and 1 (array) were freed. -/
theorem mesh_construct_destroy_no_leak_witness :
    ((meshDestroy (meshConstruct [] [] ⟨1, [], 1, []⟩).1
        (meshConstruct [] [] ⟨1, [], 1, []⟩).2).1.VAO = 0 ∧
      (meshDestroy (meshConstruct [] [] ⟨1, [], 1, []⟩).1
        (meshConstruct [] [] ⟨1, [], 1, []⟩).2).1.VBO = 0 ∧
      (meshDestroy (meshConstruct [] [] ⟨1, [], 1, []⟩).1
        (meshConstruct [] [] ⟨1, [], 1, []⟩).2).1.EBO = 0) ∧
    cleanupMesh (meshDestroy (meshConstruct [] [] ⟨1, [], 1, []⟩).1
        (meshConstruct [] [] ⟨1, [], 1, []⟩).2).1
        (meshDestroy (meshConstruct [] [] ⟨1, [], 1, []⟩).1
          (meshConstruct [] [] ⟨1, [], 1, []⟩).2).2 =
      meshDestroy (meshConstruct [] [] ⟨1, [], 1, []⟩).1
        (meshConstruct [] [] ⟨1, [], 1, []⟩).2 ∧
    (meshDestroy (meshConstruct [] [] ⟨1, [], 1, []⟩).1
        (meshConstruct [] [] ⟨1, [], 1, []⟩).2).2.freedBuf =
      [] ++ [(meshConstruct [] [] ⟨1, [], 1, []⟩).1.EBO,
        (meshConstruct [] [] ⟨1, [], 1, []⟩).1.VBO] ∧
    (meshDestroy (meshConstruct [] [] ⟨1, [], 1, []⟩).1
        (meshConstruct [] [] ⟨1, [], 1, []⟩).2).2.freedArr =
      [] ++ [(meshConstruct [] [] ⟨1, [], 1, []⟩).1.VAO] :=
  mesh_construct_destroy_no_leak [] [] ⟨1, [], 1, []⟩ (by decide) (by decide)

/-! ## C2: Render with an invalid raster shader -/

/-- C2 (code bug).  With a valid terrain shader, a null raster shader
(Initialize nulls it whenever it is missing or invalid) and one imported
asset, Render reaches m_rasterShader->use() in the asset loop with no null
check and crashes (modelled as none); the physics pass itself is correctly
skipped, and with an empty registry the frame does complete with terrain and
UI only. -/
theorem render_crashes_on_null_raster_shader :
    renderFrame (some { ID := 3, m_isValid := true }) none
      (some [{ dynamicWithMotion := true, isSphere := false }])
      [{ name := "model.obj", position := { x := 0, y := 0, z := 0 },
         mesh := some ([], []) }] = none ∧
    renderPhysicsObjects none (some [{ dynamicWithMotion := true, isSphere := false }]) = [] ∧
    renderFrame (some { ID := 3, m_isValid := true }) none
      (some [{ dynamicWithMotion := true, isSphere := false }]) [] =
      some [RenderEvent.terrainDraw, RenderEvent.uiPass] := by
  refine ⟨rfl, rfl, rfl⟩

/-! ## C3: channel-count handling in texture loading -/

/-- Counterexample for C3.  A decoded two-channel image is not rejected:
LoadTextureData succeeds, a GPU texture is created (handle 1 is consumed)
and the format is the substituted GL_RGB. -/
theorem two_channel_image_not_rejected :
    (LoadTextureData "gray_alpha.png" true (some 2)
        ⟨[], [], ⟨1, [], 0⟩⟩).1 = some (1, GLFormat.rgb) ∧
    (LoadTextureData "gray_alpha.png" true (some 2)
        ⟨[], [], ⟨1, [], 0⟩⟩).2.gl.nextID = 2 ∧
    chooseFormat 2 = GLFormat.rgb := by
  refine ⟨rfl, rfl, rfl⟩

/-- C3 as amended.  Channel counts 1, 3 and 4 map to GL_RED, GL_RGB and
GL_RGBA; any other channel count is logged as unsupported but the load still
proceeds with the substituted GL_RGB format and creates a GPU texture; only a
failed decode makes the load fail. -/
theorem channel_count_format_mapping (path : String) (addToCache : Bool) (ch : ℕ)
    (s : TexCacheState) :
    chooseFormat 1 = GLFormat.red ∧
    chooseFormat 3 = GLFormat.rgb ∧
    chooseFormat 4 = GLFormat.rgba ∧
    (ch ≠ 1 → ch ≠ 3 → ch ≠ 4 → chooseFormat ch = GLFormat.rgb) ∧
    (LoadTextureData path addToCache (some ch) s).1 = some (s.gl.nextID, chooseFormat ch) ∧
    (LoadTextureData path addToCache none s).1 = none := by
  refine ⟨rfl, rfl, rfl, ?_, ?_, rfl⟩
  · intro h1 h3 h4
    simp [chooseFormat, h1, h3, h4]
  · simp only [LoadTextureData]

/-- Witness for C3: channel count 2 in the empty initial cache state maps to
the substituted GL_RGB and the load succeeds with the fresh handle 1. -/
theorem channel_count_format_mapping_witness :
    chooseFormat 2 = GLFormat.rgb ∧
    (LoadTextureData "two.png" true (some 2) ⟨[], [], ⟨1, [], 0⟩⟩).1 =
      some ((⟨[], [], ⟨1, [], 0⟩⟩ : TexCacheState).gl.nextID, chooseFormat 2) :=
  ⟨(channel_count_format_mapping "two.png" true 2 ⟨[], [], ⟨1, [], 0⟩⟩).2.2.2.1
      (by decide) (by decide) (by decide),
   (channel_count_format_mapping "two.png" true 2 ⟨[], [], ⟨1, [], 0⟩⟩).2.2.2.2.1⟩

/-! ## C4: texture cache idempotence and staleness -/

theorem freshLoad_some (p : String) (uc : Bool) (cur ch : ℕ) (s : TexCacheState) :
    freshLoad p uc cur (some ch) s =
      (TexResult.ok s.gl.nextID,
       { cache := if uc then insertA s.cache p s.gl.nextID else s.cache
         stamps := insertA s.stamps p cur
         gl := { nextID := s.gl.nextID + 1, deleted := s.gl.deleted,
                 decodes := s.gl.decodes + 1 } }) := by
  cases uc <;> rfl

/-- After a successful cached construction, the cache maps the path to the
returned handle and the timestamp map records the file's timestamp. -/
theorem textureConstruct_ok_lookup (path : String) (t ch h : ℕ) (s s1 : TexCacheState)
    (hrun : textureConstruct path true { mtime := some t, decodeChannels := some ch } s =
      (TexResult.ok h, s1)) :
    lookupA s1.cache path = some h ∧ lookupA s1.stamps path = some t := by
  have hfl : ∀ s2 : TexCacheState,
      freshLoad path true t (some ch) s2 = (TexResult.ok h, s1) →
      lookupA s1.cache path = some h ∧ lookupA s1.stamps path = some t := by
    intro s2 hr
    rw [freshLoad_some] at hr
    rw [Prod.mk.injEq, TexResult.ok.injEq] at hr
    obtain ⟨hr1, hr2⟩ := hr
    subst hr1
    subst hr2
    exact ⟨lookupA_insertA_self _ _ _, lookupA_insertA_self _ _ _⟩
  rcases hc : lookupA s.cache path with _ | cid <;>
    rcases hs : lookupA s.stamps path with _ | ct <;>
    simp only [textureConstruct, hc, hs] at hrun
  · exact hfl s hrun
  · exact hfl s hrun
  · exact hfl s hrun
  · by_cases hct : ct = t
    · rw [if_pos hct] at hrun
      rw [Prod.mk.injEq, TexResult.ok.injEq] at hrun
      obtain ⟨hr1, hr2⟩ := hrun
      subst hr1
      subst hr2
      exact ⟨hc, by rw [hs, hct]⟩
    · rw [if_neg hct] at hrun
      exact hfl _ hrun

/-- C4.  With caching enabled and an unchanged modification timestamp, a
second construction at the same path returns the same GPU handle and leaves
the process-wide state (so in particular the decode count and the
fresh-handle counter) exactly as it was; with a changed timestamp, the old
cached handle is deleted and one new decode produces the fresh — hence
different — handle. -/
theorem texture_cache_idempotence :
    (∀ (s s1 : TexCacheState) (path : String) (t ch h : ℕ),
      textureConstruct path true { mtime := some t, decodeChannels := some ch } s =
        (TexResult.ok h, s1) →
      textureConstruct path true { mtime := some t, decodeChannels := some ch } s1 =
        (TexResult.ok h, s1)) ∧
    (∀ (s : TexCacheState) (path : String) (t tNew ch h : ℕ),
      t ≠ tNew →
      lookupA s.cache path = some h →
      lookupA s.stamps path = some t →
      0 < h → h < s.gl.nextID →
      (textureConstruct path true { mtime := some tNew, decodeChannels := some ch } s).1 =
        TexResult.ok s.gl.nextID ∧
      s.gl.nextID ≠ h ∧
      h ∈ (textureConstruct path true
        { mtime := some tNew, decodeChannels := some ch } s).2.gl.deleted ∧
      (textureConstruct path true
        { mtime := some tNew, decodeChannels := some ch } s).2.gl.decodes =
        s.gl.decodes + 1) := by
  constructor
  · intro s s1 path t ch h hrun
    obtain ⟨hcache, hstamps⟩ := textureConstruct_ok_lookup path t ch h s s1 hrun
    simp [textureConstruct, hcache, hstamps]
  · intro s path t tNew ch h hne hc hs h0 hlt
    have hne0 : h ≠ 0 := Nat.pos_iff_ne_zero.mp h0
    have hred : textureConstruct path true
        { mtime := some tNew, decodeChannels := some ch } s =
        freshLoad path true tNew (some ch)
          { s with cache := eraseA s.cache path, gl := freeTex s.gl h } := by
      simp [textureConstruct, hc, hs, hne, hne0]
    rw [hred, freshLoad_some]
    refine ⟨rfl, by omega, ?_, rfl⟩
    simp [freeTex]

/-- Witness for C4: from the empty cache, loading "a.png" (timestamp 5,
3 channels) yields handle 1 and state s1; reloading at the unchanged
timestamp returns handle 1 with s1 untouched, while timestamp 6 deletes
handle 1, decodes once more and yields the fresh handle 2. -/
theorem texture_cache_idempotence_witness :
    textureConstruct "a.png" true { mtime := some 5, decodeChannels := some 3 }
        (⟨[("a.png", 1)], [("a.png", 5)], ⟨2, [], 1⟩⟩ : TexCacheState) =
      (TexResult.ok 1, ⟨[("a.png", 1)], [("a.png", 5)], ⟨2, [], 1⟩⟩) ∧
    ((textureConstruct "a.png" true { mtime := some 6, decodeChannels := some 3 }
        (⟨[("a.png", 1)], [("a.png", 5)], ⟨2, [], 1⟩⟩ : TexCacheState)).1 =
      TexResult.ok (⟨[("a.png", 1)], [("a.png", 5)], ⟨2, [], 1⟩⟩ : TexCacheState).gl.nextID ∧
     (⟨[("a.png", 1)], [("a.png", 5)], ⟨2, [], 1⟩⟩ : TexCacheState).gl.nextID ≠ 1 ∧
     1 ∈ (textureConstruct "a.png" true { mtime := some 6, decodeChannels := some 3 }
        (⟨[("a.png", 1)], [("a.png", 5)], ⟨2, [], 1⟩⟩ : TexCacheState)).2.gl.deleted ∧
     (textureConstruct "a.png" true { mtime := some 6, decodeChannels := some 3 }
        (⟨[("a.png", 1)], [("a.png", 5)], ⟨2, [], 1⟩⟩ : TexCacheState)).2.gl.decodes =
      (⟨[("a.png", 1)], [("a.png", 5)], ⟨2, [], 1⟩⟩ : TexCacheState).gl.decodes + 1) :=
  ⟨texture_cache_idempotence.1 ⟨[], [], ⟨1, [], 0⟩⟩
      ⟨[("a.png", 1)], [("a.png", 5)], ⟨2, [], 1⟩⟩ "a.png" 5 3 1 (by decide),
   texture_cache_idempotence.2 ⟨[("a.png", 1)], [("a.png", 5)], ⟨2, [], 1⟩⟩
      "a.png" 5 6 3 1 (by decide) (by decide) (by decide) (by decide) (by decide)⟩

/-! ## C10: where GPU texture handles are released -/

/-- Counterexample for C10.  The release-discipline part of the claim is
false: constructing a Texture over a stale cache entry (cached handle 5 with
stored timestamp 1, current timestamp 2) passes handle 5 to glDeleteTextures,
and a construction is none of Reload, ClearCache, ForceReloadAll. -/
theorem constructor_frees_stale_cache_handle :
    ¬ (texDestructorInert ∧ releasedOnlyByCacheOps) := by
  rintro ⟨-, hB⟩
  have hfrees : opFrees (⟨[("a.png", 5)], [("a.png", 1)], ⟨6, [], 0⟩⟩ : TexCacheState)
      (TexOp.construct "a.png" true { mtime := some 2, decodeChannels := some 3 }) 5 := by
    exact ⟨by decide, by decide⟩
  have hco := hB _ _ _ hfrees
  simp [isCacheReleaseOp] at hco

/-- A construction either leaves the deleted-handle list alone, or (with
caching on, a cached handle and a stale stored timestamp) appends exactly the
stale cached handle. -/
theorem textureConstruct_deleted (p : String) (uc : Bool) (env : FileEnv)
    (s : TexCacheState) :
    (textureConstruct p uc env s).2.gl.deleted = s.gl.deleted ∨
    (uc = true ∧ ∃ cid t cur,
      lookupA s.cache p = some cid ∧ lookupA s.stamps p = some t ∧
      env.mtime = some cur ∧ t ≠ cur ∧ cid ≠ 0 ∧
      (textureConstruct p uc env s).2.gl.deleted = s.gl.deleted ++ [cid]) := by
  obtain ⟨mt, dec⟩ := env
  cases mt with
  | none => exact Or.inl rfl
  | some cur =>
    cases uc with
    | false =>
      left
      simp only [textureConstruct]
      exact freshLoad_deleted p false cur dec s
    | true =>
      rcases hc : lookupA s.cache p with _ | cid
      · left
        simp only [textureConstruct, hc]
        exact freshLoad_deleted p true cur dec s
      · rcases hs : lookupA s.stamps p with _ | t
        · left
          simp only [textureConstruct, hc, hs]
          exact freshLoad_deleted p true cur dec s
        · by_cases hct : t = cur
          · left
            simp [textureConstruct, hc, hs, hct]
          · by_cases hcid : cid = 0
            · left
              simp only [textureConstruct, hc, hs, hct, hcid]
              simp only [if_neg hct, ne_eq, not_true_eq_false, reduceIte, hcid]
              exact freshLoad_deleted p true cur dec _
            · right
              refine ⟨rfl, cid, t, cur, rfl, rfl, rfl, hct, hcid, ?_⟩
              simp only [textureConstruct, hc, hs, if_neg hct]
              have : (if cid ≠ 0 then { s with gl := freeTex s.gl cid } else s) =
                  { s with gl := freeTex s.gl cid } := if_pos hcid
              rw [this]
              rw [freshLoad_deleted]
              rfl

/-- C10 as amended.  Destroying a Texture instance changes nothing in the
process-wide state (no GPU delete, both maps untouched); and a GPU texture
handle is passed to glDeleteTextures only by Reload, ClearCache,
ForceReloadAll, or by the constructor when it invalidates a stale cache
entry whose stored timestamp differs from the file's current one. -/
theorem texture_release_sites :
    (∀ s : TexCacheState, textureDestroy s = s) ∧
    (∀ (s : TexCacheState) (op : TexOp) (h : ℕ), opFrees s op h →
      isCacheReleaseOp op ∨
      ∃ (path : String) (env : FileEnv),
        op = TexOp.construct path true env ∧
        lookupA s.cache path = some h ∧
        ∃ t cur, lookupA s.stamps path = some t ∧ env.mtime = some cur ∧ t ≠ cur) := by
  refine ⟨fun s => rfl, ?_⟩
  intro s op h hf
  cases op with
  | construct p uc env =>
    rcases textureConstruct_deleted p uc env s with hd |
      ⟨huc, cid, t, cur, hc, hs, hm, hne, hcid, hd⟩
    · exact absurd (hd ▸ hf.1) hf.2
    · right
      have hmem : h ∈ s.gl.deleted ++ [cid] := by
        have h1 := hf.1
        simp only [texStep] at h1
        rw [hd] at h1
        exact h1
      have hhcid : h = cid := by
        rcases List.mem_append.mp hmem with hin | hin
        · exact absurd hin hf.2
        · simpa using hin
      subst huc
      refine ⟨p, env, rfl, ?_, t, cur, hs, hm, hne⟩
      rw [hhcid]
      exact hc
  | destroy => exact absurd hf.1 hf.2
  | reload i p np env => exact Or.inl trivial
  | clearCache => exact Or.inl trivial
  | forceReloadAll => exact Or.inl trivial

/-- Witness for C10 as amended: the destructor is inert on the empty state,
and the concrete stale construction that frees handle 5 is classified by the
amended release discipline. -/
theorem texture_release_sites_witness :
    textureDestroy (⟨[], [], ⟨1, [], 0⟩⟩ : TexCacheState) =
      (⟨[], [], ⟨1, [], 0⟩⟩ : TexCacheState) ∧
    (isCacheReleaseOp
        (TexOp.construct "a.png" true { mtime := some 2, decodeChannels := some 3 }) ∨
      ∃ (path : String) (env : FileEnv),
        TexOp.construct "a.png" true { mtime := some 2, decodeChannels := some 3 } =
          TexOp.construct path true env ∧
        lookupA (⟨[("a.png", 5)], [("a.png", 1)], ⟨6, [], 0⟩⟩ : TexCacheState).cache path =
          some 5 ∧
        ∃ t cur,
          lookupA (⟨[("a.png", 5)], [("a.png", 1)], ⟨6, [], 0⟩⟩ : TexCacheState).stamps path =
            some t ∧
          env.mtime = some cur ∧ t ≠ cur) :=
  ⟨texture_release_sites.1 ⟨[], [], ⟨1, [], 0⟩⟩,
   texture_release_sites.2 ⟨[("a.png", 5)], [("a.png", 1)], ⟨6, [], 0⟩⟩
     (TexOp.construct "a.png" true { mtime := some 2, decodeChannels := some 3 }) 5
     ⟨by decide, by decide⟩⟩
